import Mathlib

/-!
Shallow embedding of the account-form validation/submission layer and the
best-sellers recommendation fetcher of the storefront repository.

Sources embedded:
  - `AccountLoginForm.client.tsx` (two-stage login form and `callLoginApi`)
  - `AccountDetailsEdit.client.tsx` (profile edit form and `callAccountUpdateApi`)
  - the password-reset form component and `callPasswordResetApi`
  - the empty-cart `TopProducts` best-sellers fetcher
  - the `api` route handler of `routes/account/index.server.tsx`

DOM form controls are modelled by their value strings together with the
HTML constraint-validation verdict (`required`, `minLength`).  Network
effects are modelled by threading an explicit fetch outcome through the
submit handlers and recording the requests a handler issues.
-/

namespace Hydrogen

/-- HTML constraint-validation state of a text input (the parts the embedded
components consult: `validity.valid`, `validity.valueMissing`, and the
too-short verdict coming from `minLength`). -/
structure Validity where
  valueMissing : Bool
  tooShort : Bool
deriving Repr, DecidableEq

def Validity.valid (v : Validity) : Bool :=
  !v.valueMissing && !v.tooShort

/-- Validity of a `required` input with a `minLength` attribute, computed from
its value as the browser does: an empty value is value-missing (never
too-short); a non-empty value shorter than `minLen` is too-short. -/
def mkValidity (minLen : Nat) (value : String) : Validity :=
  { valueMissing := value == ""
    tooShort := value != "" && decide (value.length < minLen) }

/-- JavaScript truthiness of an optional string field (`undefined` and the
empty string are falsy). -/
def truthy : Option String → Bool
  | none => false
  | some s => s != ""

/-- The `{error?: string}` shape every remote call adapter resolves to. -/
structure ApiResponse where
  error : Option String
deriving Repr, DecidableEq

/-- Outcome of the single `fetch` inside an adapter: an HTTP success
(`res.ok`), an HTTP failure whose JSON body parses to `body`, or a thrown
transport failure whose `toString()` is `stringified`. -/
inductive FetchOutcome where
  | success
  | httpError (body : ApiResponse)
  | exception (stringified : String)
deriving Repr, DecidableEq

/-- Shared error-message selector for a password input: the missing-value
message or the too-short message, as in the login and reset forms. -/
def passwordMessage (v : Validity) : String :=
  if v.valueMissing then "Please enter a password"
  else "Passwords must be at least 6 characters"

/-! ## Login form (`AccountLoginForm.client.tsx`) -/

/-- React state of `AccountLoginForm`. -/
structure LoginState where
  hasSubmitError : Bool
  showEmailField : Bool
  email : String
  emailError : Option String
  password : String
  passwordError : Option String
deriving Repr, DecidableEq

/-- The HTTP request `callLoginApi` issues. -/
structure LoginRequest where
  method : String
  path : String
  email : String
  password : String
deriving Repr, DecidableEq

/-- `callLoginApi`: POST `/account/login` with `{email, password}`; `{}` on
`res.ok`, the parsed JSON body on HTTP failure, `{error: error.toString()}`
on a thrown transport failure. -/
def callLoginApi (email password : String) (outcome : FetchOutcome) :
    LoginRequest × ApiResponse :=
  (⟨"POST", "/account/login", email, password⟩,
   match outcome with
   | .success => ⟨none⟩
   | .httpError body => body
   | .exception s => ⟨some s⟩)

/-- The error-clearing prologue of `onSubmit`. -/
def clearLoginMessages (s : LoginState) : LoginState :=
  { s with emailError := none, hasSubmitError := false, passwordError := none }

/-- `checkEmail`: advance to the password stage on a valid email input, else
set the email error message. -/
def checkEmail (emailDomValid : Bool) (s : LoginState) : LoginState :=
  if emailDomValid then { s with showEmailField := false }
  else { s with emailError := some "Please enter a valid email" }

/-- `resetForm`: back to the email-entry stage with all fields and field
errors cleared (`hasSubmitError` is not touched by `resetForm`). -/
def resetForm (s : LoginState) : LoginState :=
  { s with showEmailField := true, email := "", emailError := none,
           password := "", passwordError := none }

/-- Result of one submit: the next state, the requests issued, and the
navigation performed. -/
structure LoginOutcome where
  state : LoginState
  calls : List LoginRequest
  navigatedTo : Option String
deriving Repr, DecidableEq

/-- `checkPassword`: on a valid password input, call the login API and either
show the generic failure banner and reset the form, or navigate to
`/account`; on an invalid input, set the password error message. -/
def checkPassword (s : LoginState) (outcome : FetchOutcome) : LoginOutcome :=
  let validity := mkValidity 8 s.password
  if validity.valid then
    let call := callLoginApi s.email s.password outcome
    if truthy call.2.error then
      ⟨resetForm { s with hasSubmitError := true }, [call.1], none⟩
    else
      ⟨s, [call.1], some "/account"⟩
  else
    ⟨{ s with passwordError := some (passwordMessage validity) }, [], none⟩

/-- `onSubmit` of the login form: clear messages, then stage 1 (`checkEmail`)
or stage 2 (`checkPassword`) by `showEmailField`. -/
def loginOnSubmit (emailDomValid : Bool) (s : LoginState)
    (outcome : FetchOutcome) : LoginOutcome :=
  let s := clearLoginMessages s
  if s.showEmailField then ⟨checkEmail emailDomValid s, [], none⟩
  else checkPassword s outcome

/-! ## Account-details edit form (`AccountDetailsEdit.client.tsx`) -/

/-- Modelled from the spec: the helper `emailValidation` imported from
`~/lib/utils` is not among the provided sources.  Per the spec it returns the
message "Please enter a valid email" when the field fails the built-in
email-format validity and null otherwise; the DOM validity verdict of the
email input is taken as input. -/
def emailValidation (emailDomValid : Bool) : Option String :=
  if emailDomValid then none else some "Please enter a valid email"

/-- Modelled from the spec: the helper `passwordValidation` imported from
`~/lib/utils` is not among the provided sources.  Per the spec a missing
value yields "Please enter a password" and a too-short value yields
"Passwords must be at least 6 characters"; the password inputs of the edit
form carry `minLength` 8 and `required`. -/
def utilsPasswordValidation (value : String) : Option String :=
  let v := mkValidity 8 value
  if v.valid then none else some (passwordMessage v)

/-- The DOM field values (and the email validity verdict) `onSubmit` reads
from `event.currentTarget`; the password inputs are uncontrolled relative to
the form component, so they are inputs to the handler. -/
structure EditDomFields where
  emailDomValid : Bool
  currentPassword : String
  newPassword : String
  newPassword2 : String
deriving Repr, DecidableEq

/-- The four local error variables computed by `onSubmit` of the edit form. -/
structure EditErrors where
  emailError : Option String
  currentPasswordError : Option String
  newPasswordError : Option String
  newPassword2Error : Option String
deriving Repr, DecidableEq

/-- The validation section of `onSubmit`: email is always checked; the three
password checks run only when `currentPassword` has a (truthy) value. -/
def editValidate (dom : EditDomFields) : EditErrors :=
  let emailError := emailValidation dom.emailDomValid
  if dom.currentPassword != "" then
    { emailError := emailError
      currentPasswordError := utilsPasswordValidation dom.currentPassword
      newPasswordError := utilsPasswordValidation dom.newPassword
      newPassword2Error :=
        if dom.newPassword != dom.newPassword2 then
          some "The two passwords entered did not match"
        else none }
  else
    { emailError := emailError, currentPasswordError := none
      newPasswordError := none, newPassword2Error := none }

/-- The `if (emailError || currentPasswordError || ...)` early-return test. -/
def EditErrors.hasAny (e : EditErrors) : Bool :=
  e.emailError.isSome || e.currentPasswordError.isSome ||
  e.newPasswordError.isSome || e.newPassword2Error.isSome

/-- React state of `AccountDetailsEdit`. -/
structure EditState where
  saving : Bool
  firstName : String
  lastName : String
  phone : String
  email : String
  emailError : Option String
  currentPasswordError : Option String
  newPasswordError : Option String
  newPassword2Error : Option String
  submitError : Option String
deriving Repr, DecidableEq

/-- The HTTP request `callAccountUpdateApi` issues (PATCH `/account`). -/
structure AccountUpdateRequest where
  method : String
  path : String
  email : String
  newPassword : String
  currentPassword : String
  phone : String
  firstName : String
  lastName : String
deriving Repr, DecidableEq

/-- `callAccountUpdateApi`: PATCH `/account` with the six profile fields;
`{}` on `res.ok`, the parsed JSON body on HTTP failure, and the fixed message
"Error saving account. Please try again." on a thrown transport failure (the
caught value is discarded). -/
def callAccountUpdateApi (email newPassword currentPassword phone firstName
    lastName : String) (outcome : FetchOutcome) :
    AccountUpdateRequest × ApiResponse :=
  (⟨"PATCH", "/account", email, newPassword, currentPassword, phone,
    firstName, lastName⟩,
   match outcome with
   | .success => ⟨none⟩
   | .httpError body => body
   | .exception _ => ⟨some "Error saving account. Please try again."⟩)

/-- Result of one submit of the edit form: the next state, the requests
issued, and whether the panel was closed / the server components
re-rendered. -/
structure EditOutcome where
  state : EditState
  calls : List AccountUpdateRequest
  closed : Bool
  rerendered : Bool
deriving Repr, DecidableEq

/-- `onSubmit` of the edit form: clear the four field errors, validate,
return early on any error, otherwise call the account-update API with the
React profile state plus the DOM password values, and either surface the
response error or re-render and close. -/
def editOnSubmit (s : EditState) (dom : EditDomFields)
    (outcome : FetchOutcome) : EditOutcome :=
  let errs := editValidate dom
  let s := { s with emailError := errs.emailError
                    currentPasswordError := errs.currentPasswordError
                    newPasswordError := errs.newPasswordError
                    newPassword2Error := errs.newPassword2Error }
  if errs.hasAny then ⟨s, [], false, false⟩
  else
    let call := callAccountUpdateApi s.email dom.newPassword
      dom.currentPassword s.phone s.firstName s.lastName outcome
    let s := { s with saving := false }
    if truthy call.2.error then
      ⟨{ s with submitError := call.2.error }, [call.1], false, false⟩
    else
      ⟨s, [call.1], true, true⟩

/-! ## Password-reset form -/

/-- React state of `AccountPasswordResetForm`. -/
structure ResetState where
  submitError : Option String
  password : String
  passwordError : Option String
  passwordConfirm : String
  passwordConfirmError : Option String
deriving Repr, DecidableEq

/-- The message the invalid-confirm branch of the reset form selects: it
consults `form.password.validity.valueMissing` (the primary field), not the
confirm field. -/
def resetConfirmBranchMessage (password : String) : String :=
  if (mkValidity 8 password).valueMissing then "Please re-enter a password"
  else "Passwords must be at least 6 characters"

/-- The values `passwordValidation` of the reset form leaves in the two error
slots, plus its boolean return. -/
structure ResetValidation where
  hasError : Bool
  passwordError : Option String
  passwordConfirmError : Option String
deriving Repr, DecidableEq

/-- The local `passwordValidation` of the reset form: clear both error slots;
flag the primary field by its own validity; flag the confirm field by its
validity but word the message by the primary field; finally overwrite the
confirm error with the mismatch literal when the two state values differ.
Later assignments to the same slot overwrite earlier ones. -/
def resetPasswordValidation (password passwordConfirm : String) :
    ResetValidation :=
  let r : ResetValidation := ⟨false, none, none⟩
  let r := if !(mkValidity 8 password).valid then
      { r with hasError := true
               passwordError := some (passwordMessage (mkValidity 8 password)) }
    else r
  let r := if !(mkValidity 8 passwordConfirm).valid then
      { r with hasError := true
               passwordConfirmError := some (resetConfirmBranchMessage password) }
    else r
  if password != passwordConfirm then
    { r with hasError := true
             passwordConfirmError := some "The two password entered did not match." }
  else r

/-- The HTTP request `callPasswordResetApi` issues. -/
structure ResetRequest where
  method : String
  path : String
  id : String
  resetToken : String
  password : String
deriving Repr, DecidableEq

/-- `callPasswordResetApi`: POST `/account/reset` with
`{id, resetToken, password}`; `{}` on `res.ok`, the parsed JSON body on HTTP
failure, `{error: error.toString()}` on a thrown transport failure. -/
def callPasswordResetApi (id resetToken password : String)
    (outcome : FetchOutcome) : ResetRequest × ApiResponse :=
  (⟨"POST", "/account/reset", id, resetToken, password⟩,
   match outcome with
   | .success => ⟨none⟩
   | .httpError body => body
   | .exception s => ⟨some s⟩)

/-- Result of one submit of the reset form. -/
structure ResetOutcome where
  state : ResetState
  calls : List ResetRequest
  navigatedTo : Option String
deriving Repr, DecidableEq

/-- `onSubmit` of the reset form: run `passwordValidation`, return early when
it reports an error, otherwise call the reset API and either surface the
response error or navigate to `/account`. -/
def resetOnSubmit (id resetToken : String) (s : ResetState)
    (outcome : FetchOutcome) : ResetOutcome :=
  let v := resetPasswordValidation s.password s.passwordConfirm
  let s := { s with passwordError := v.passwordError
                    passwordConfirmError := v.passwordConfirmError }
  if v.hasError then ⟨s, [], none⟩
  else
    let call := callPasswordResetApi id resetToken s.password outcome
    if truthy call.2.error then
      ⟨{ s with submitError := call.2.error }, [call.1], none⟩
    else
      ⟨s, [call.1], some "/account"⟩

/-! ## Best-sellers recommendation fetcher (`TopProducts` in the empty-cart view) -/

/-- The part of a product record `TopProducts` consumes (the `key` of each
rendered card). -/
structure ProductLite where
  id : String
deriving Repr, DecidableEq

/-- The `fetchSync('/api/bestSellers')` response as the component reads it. -/
structure BestSellersResponse where
  ok : Bool
  url : String
  status : Nat
  products : List ProductLite
deriving Repr, DecidableEq

/-- What the recommendation section renders: nothing (`null`), the literal
"No products found." text, or one card per product id. -/
inductive TopRender where
  | nothing
  | noProductsText
  | cards (ids : List String)
deriving Repr, DecidableEq

/-- `TopProducts`: on a non-ok response, log one error naming the response
URL and status and render `null`; on an empty product list, render the
no-products text; otherwise render one card per product keyed by its id.
The second component collects the `console.error` lines. -/
def topProducts (r : BestSellersResponse) : TopRender × List String :=
  if !r.ok then
    (.nothing,
     ["Unable to load top products " ++ r.url ++ " returned a " ++
      toString r.status])
  else if r.products.length == 0 then
    (.noProductsText, [])
  else
    (.cards (r.products.map ProductLite.id), [])

/-! ## `api` route handler of `routes/account/index.server.tsx` (PATCH path) -/

/-- The JSON body fields the PATCH handler destructures; a missing field is
`none` (JavaScript `undefined`). -/
structure AccountUpdateBody where
  email : Option String
  phone : Option String
  firstName : Option String
  lastName : Option String
  newPassword : Option String
deriving Repr, DecidableEq

/-- The `customer` object sent as the `customerUpdate` mutation variable; an
absent property is `none`. -/
structure CustomerUpdateInput where
  email : Option String
  phone : Option String
  firstName : Option String
  lastName : Option String
  password : Option String
deriving Repr, DecidableEq

/-- The field-by-field copy in the PATCH handler: each property is assigned
only when the request value is truthy (`if (email) customer.email = email`,
and so on; `newPassword` lands in `password`). -/
def buildCustomerUpdate (b : AccountUpdateBody) : CustomerUpdateInput :=
  { email := if truthy b.email then b.email else none
    phone := if truthy b.phone then b.phone else none
    firstName := if truthy b.firstName then b.firstName else none
    lastName := if truthy b.lastName then b.lastName else none
    password := if truthy b.newPassword then b.newPassword else none }

/-! ## Submission concurrency machines

The forms are single components driven by user events (submit clicks) and
network-completion events.  A machine state counts the in-flight adapter
calls and the calls made so far; a submit event runs the synchronous prefix
of the handler (up to the `await`), a response event runs the continuation
after the `await` and retires one in-flight call. -/

/-- Events hitting the login form. -/
inductive LoginEvent where
  | submit (emailDomValid : Bool)
  | response (resp : ApiResponse)
deriving Repr, DecidableEq

/-- The login form together with its network bookkeeping.  `AccountLoginForm`
has no busy/saving flag: nothing in its state disables the submit control. -/
structure LoginMachine where
  form : LoginState
  inFlight : Nat
  callsMade : Nat
deriving Repr, DecidableEq

/-- The continuation of `checkPassword` after the `await`: an error response
sets the banner flag and resets the form; otherwise navigation leaves the
state as is. -/
def handleLoginResponse (s : LoginState) (resp : ApiResponse) : LoginState :=
  if truthy resp.error then resetForm { s with hasSubmitError := true } else s

/-- One step of the login form.  A submit event always reaches `onSubmit`
(there is no disabled state); in the password stage with a valid password the
adapter call starts and the handler suspends.  A response event retires one
in-flight call and runs the continuation. -/
def loginMachineStep (m : LoginMachine) (e : LoginEvent) : LoginMachine :=
  match e with
  | .submit emailDomValid =>
    let s := clearLoginMessages m.form
    if s.showEmailField then { m with form := checkEmail emailDomValid s }
    else if (mkValidity 8 s.password).valid then
      { form := s, inFlight := m.inFlight + 1, callsMade := m.callsMade + 1 }
    else
      { m with form :=
          { s with passwordError := some (passwordMessage (mkValidity 8 s.password)) } }
  | .response resp =>
    if m.inFlight == 0 then m
    else { form := handleLoginResponse m.form resp,
           inFlight := m.inFlight - 1, callsMade := m.callsMade }

/-- Events hitting the edit form. -/
inductive EditEvent where
  | submit (dom : EditDomFields)
  | response
deriving Repr, DecidableEq

/-- Network bookkeeping of the edit form: its `saving` flag disables the
submit control while a call is in flight. -/
structure EditMachine where
  saving : Bool
  inFlight : Nat
  callsMade : Nat
deriving Repr, DecidableEq

/-- One step of the edit form.  While `saving` is true the submit button is
disabled, so a submit event does not reach `onSubmit`.  Otherwise the
synchronous prefix of `onSubmit` runs: a validation error returns early; a
clean validation sets `saving`, starts the call and suspends.  A response
event runs the continuation, which clears `saving` (`setSaving(false)`). -/
def editMachineStep (m : EditMachine) (e : EditEvent) : EditMachine :=
  match e with
  | .submit dom =>
    if m.saving then m
    else if (editValidate dom).hasAny then m
    else { saving := true, inFlight := m.inFlight + 1,
           callsMade := m.callsMade + 1 }
  | .response =>
    if m.inFlight == 0 then m
    else { saving := false, inFlight := m.inFlight - 1,
           callsMade := m.callsMade }

/-- The edit form as mounted: not saving, nothing in flight. -/
def editMachineInit : EditMachine := ⟨false, 0, 0⟩

/-- Run the edit-form machine over a list of events. -/
def editMachineRun (m : EditMachine) (evs : List EditEvent) : EditMachine :=
  evs.foldl editMachineStep m

/-! ## Helper lemmas -/

theorem EditErrors.eq_of_hasAny_false {e : EditErrors} (h : e.hasAny = false) :
    e = ⟨none, none, none, none⟩ := by
  obtain ⟨a, b, c, d⟩ := e
  cases a <;> cases b <;> cases c <;> cases d <;>
    simp_all [EditErrors.hasAny]

theorem resetValidation_no_error {p pc : String}
    (h : (resetPasswordValidation p pc).hasError = false) :
    (resetPasswordValidation p pc).passwordError = none ∧
    (resetPasswordValidation p pc).passwordConfirmError = none := by
  unfold resetPasswordValidation at h ⊢
  split_ifs at h ⊢
  all_goals simp_all

theorem beq_empty_false_of_long {s : String} (h : 8 ≤ s.length) :
    (s == "") = false := by
  cases h' : s == "" with
  | true =>
    have hs : s = "" := by simpa using h'
    subst hs
    simp at h
  | false => rfl

theorem mkValidity_valid_of_long {s : String} (h : 8 ≤ s.length) :
    (mkValidity 8 s).valid = true := by
  have hb := beq_empty_false_of_long h
  simp [mkValidity, Validity.valid, hb, bne]
  omega

/-! ## Claim theorems -/

/-- Claim C1: on each of the three forms (account-details edit, password
reset, login) the submit handler performs the network call only when every
locally-computed validation error of that submission is null: whenever the
handler issues a call, the validation it computed produced no error. -/
theorem c1_submit_only_when_no_errors
    (es : EditState) (dom : EditDomFields) (o1 : FetchOutcome)
    (id tok : String) (rs : ResetState) (o2 : FetchOutcome)
    (ev : Bool) (ls : LoginState) (o3 : FetchOutcome) :
    ((editOnSubmit es dom o1).calls ≠ [] →
      editValidate dom = ⟨none, none, none, none⟩) ∧
    ((resetOnSubmit id tok rs o2).calls ≠ [] →
      (resetPasswordValidation rs.password rs.passwordConfirm).passwordError = none ∧
      (resetPasswordValidation rs.password rs.passwordConfirm).passwordConfirmError = none) ∧
    ((loginOnSubmit ev ls o3).calls ≠ [] →
      ls.showEmailField = false ∧ (mkValidity 8 ls.password).valid = true ∧
      (clearLoginMessages ls).emailError = none ∧
      (clearLoginMessages ls).passwordError = none) := by
  refine ⟨?_, ?_, ?_⟩
  · intro hc
    by_cases h : (editValidate dom).hasAny
    · exact absurd (by simp [editOnSubmit, h]) hc
    · exact EditErrors.eq_of_hasAny_false (by simpa using h)
  · intro hc
    by_cases h : (resetPasswordValidation rs.password rs.passwordConfirm).hasError
    · exact absurd (by simp [resetOnSubmit, h]) hc
    · exact resetValidation_no_error (by simpa using h)
  · intro hc
    by_cases hs : ls.showEmailField
    · exact absurd (by simp [loginOnSubmit, clearLoginMessages, hs]) hc
    · by_cases hv : (mkValidity 8 ls.password).valid
      · exact ⟨by simpa using hs, hv, rfl, rfl⟩
      · exact absurd
          (by simp [loginOnSubmit, clearLoginMessages, checkPassword, hs, hv]) hc

/-- Witness for C1 at concrete submissions that do reach the network on all
three forms. -/
theorem c1_submit_only_when_no_errors_witness :
    editValidate ⟨true, "currentpw1", "newpassword", "newpassword"⟩ =
      ⟨none, none, none, none⟩ ∧
    (resetPasswordValidation "longpassword" "longpassword").passwordError = none ∧
    ((false : Bool) = false ∧
      (mkValidity 8 "password123").valid = true ∧
      (clearLoginMessages ⟨false, false, "a@b.co", none, "password123", none⟩).emailError = none ∧
      (clearLoginMessages ⟨false, false, "a@b.co", none, "password123", none⟩).passwordError = none) := by
  have h := c1_submit_only_when_no_errors
    ⟨false, "Jane", "Doe", "555", "jane@example.com", none, none, none, none, none⟩
    ⟨true, "currentpw1", "newpassword", "newpassword"⟩ .success
    "gid1" "token1" ⟨none, "longpassword", none, "longpassword", none⟩ .success
    true ⟨false, false, "a@b.co", none, "password123", none⟩ .success
  exact ⟨h.1 (by decide), (h.2.1 (by decide)).1, h.2.2 (by decide)⟩

/-- Claim C5: in the password stage with a valid password input, a response
carrying an error makes the login form show the generic sign-in failure
banner (`hasSubmitError`) and reset back to the email-entry stage with the
email, password and both field errors cleared, with no navigation. -/
theorem c5_login_error_resets_form (ev : Bool) (ls : LoginState)
    (o : FetchOutcome)
    (h1 : ls.showEmailField = false)
    (h2 : (mkValidity 8 ls.password).valid = true)
    (h3 : truthy ((callLoginApi ls.email ls.password o).2).error = true) :
    loginOnSubmit ev ls o =
      ⟨⟨true, true, "", none, "", none⟩,
       [⟨"POST", "/account/login", ls.email, ls.password⟩], none⟩ := by
  cases o <;>
    simp_all [loginOnSubmit, clearLoginMessages, checkPassword, callLoginApi,
      resetForm, truthy]

/-- Witness for C5: a concrete failed sign-in. -/
theorem c5_login_error_resets_form_witness :
    loginOnSubmit true ⟨false, false, "a@b.co", none, "password123", none⟩
        (.httpError ⟨some "Unidentified customer"⟩) =
      ⟨⟨true, true, "", none, "", none⟩,
       [⟨"POST", "/account/login", "a@b.co", "password123"⟩], none⟩ :=
  c5_login_error_resets_form true
    ⟨false, false, "a@b.co", none, "password123", none⟩
    (.httpError ⟨some "Unidentified customer"⟩)
    (by decide) (by decide) (by decide)

/-- Claim C6: submitting the login form in the password stage with a valid
email input and a password of length at least 8 issues exactly one POST to
`/account/login` carrying exactly the entered email and password, and an
HTTP success (the `{}` response) navigates to `/account`. -/
theorem c6_valid_login_single_post (ls : LoginState) (o : FetchOutcome)
    (h1 : ls.showEmailField = false) (h2 : 8 ≤ ls.password.length) :
    (loginOnSubmit true ls o).calls =
      [⟨"POST", "/account/login", ls.email, ls.password⟩] ∧
    (o = .success → (loginOnSubmit true ls o).navigatedTo = some "/account") := by
  have hv := mkValidity_valid_of_long h2
  constructor
  · simp [loginOnSubmit, clearLoginMessages, checkPassword, callLoginApi,
      h1, hv]
    split <;> rfl
  · intro ho
    subst ho
    simp [loginOnSubmit, clearLoginMessages, checkPassword, callLoginApi,
      h1, hv, truthy]

/-- Witness for C6: a concrete successful sign-in. -/
theorem c6_valid_login_single_post_witness :
    (loginOnSubmit true ⟨false, false, "a@b.co", none, "password123", none⟩
        .success).calls =
      [⟨"POST", "/account/login", "a@b.co", "password123"⟩] ∧
    (FetchOutcome.success = FetchOutcome.success →
      (loginOnSubmit true ⟨false, false, "a@b.co", none, "password123", none⟩
          .success).navigatedTo = some "/account") :=
  c6_valid_login_single_post
    ⟨false, false, "a@b.co", none, "password123", none⟩ .success
    (by decide) (by decide)

/-- Claim C2 counterexample: on the account-details edit form with an empty
`currentPassword` (no password change requested) and a non-empty
`newPassword`, the submit handler still sends the non-empty `newPassword`
value to the network. -/
theorem c2_counterexample :
    (⟨true, "", "newpass123", "whatever"⟩ : EditDomFields).currentPassword = "" ∧
    (editOnSubmit
        ⟨false, "Jane", "Doe", "555", "jane@example.com", none, none, none, none, none⟩
        ⟨true, "", "newpass123", "whatever"⟩ .success).calls.map
      AccountUpdateRequest.newPassword = ["newpass123"] ∧
    ("newpass123" : String) ≠ "" := by decide

/-- Claim C2 (amended): for the account-details edit form, when
`currentPassword` is empty no password-related validation error
(`currentPassword`, `newPassword`, `newPassword2`) is produced regardless of
the contents of the other password fields; however every issued request
carries the current DOM values of the password fields verbatim, so a
non-empty `newPassword` is sent even though no password change was
requested. -/
theorem c2_password_fields_behavior (s : EditState) (dom : EditDomFields)
    (o : FetchOutcome) (h : dom.currentPassword = "") :
    ((editOnSubmit s dom o).state.currentPasswordError = none ∧
     (editOnSubmit s dom o).state.newPasswordError = none ∧
     (editOnSubmit s dom o).state.newPassword2Error = none) ∧
    (∀ req ∈ (editOnSubmit s dom o).calls,
      req.newPassword = dom.newPassword ∧
      req.currentPassword = dom.currentPassword) := by
  have hval : editValidate dom =
      ⟨emailValidation dom.emailDomValid, none, none, none⟩ := by
    simp [editValidate, h]
  by_cases he : dom.emailDomValid
  · have herrs : editValidate dom = ⟨none, none, none, none⟩ := by
      simp [hval, emailValidation, he]
    constructor
    · simp [editOnSubmit, herrs, EditErrors.hasAny]
      split <;> exact ⟨rfl, rfl, rfl⟩
    · have hcalls : (editOnSubmit s dom o).calls =
          [(callAccountUpdateApi s.email dom.newPassword dom.currentPassword
              s.phone s.firstName s.lastName o).1] := by
        simp [editOnSubmit, herrs, EditErrors.hasAny]
        split <;> rfl
      intro req hreq
      rw [hcalls] at hreq
      simp at hreq
      subst hreq
      exact ⟨rfl, rfl⟩
  · have herrs : editValidate dom =
        ⟨some "Please enter a valid email", none, none, none⟩ := by
      simp [hval, emailValidation, he]
    constructor
    · simp [editOnSubmit, herrs, EditErrors.hasAny]
    · intro req hreq
      simp [editOnSubmit, herrs, EditErrors.hasAny] at hreq

/-- Witness for C2 at a concrete submission with empty `currentPassword`. -/
theorem c2_password_fields_behavior_witness :
    ((editOnSubmit
        ⟨false, "Jane", "Doe", "555", "jane@example.com", none, none, none, none, none⟩
        ⟨true, "", "newpass123", "whatever"⟩ .success).state.currentPasswordError = none ∧
     (editOnSubmit
        ⟨false, "Jane", "Doe", "555", "jane@example.com", none, none, none, none, none⟩
        ⟨true, "", "newpass123", "whatever"⟩ .success).state.newPasswordError = none ∧
     (editOnSubmit
        ⟨false, "Jane", "Doe", "555", "jane@example.com", none, none, none, none, none⟩
        ⟨true, "", "newpass123", "whatever"⟩ .success).state.newPassword2Error = none) ∧
    (∀ req ∈ (editOnSubmit
        ⟨false, "Jane", "Doe", "555", "jane@example.com", none, none, none, none, none⟩
        ⟨true, "", "newpass123", "whatever"⟩ .success).calls,
      req.newPassword = (⟨true, "", "newpass123", "whatever"⟩ : EditDomFields).newPassword ∧
      req.currentPassword = (⟨true, "", "newpass123", "whatever"⟩ : EditDomFields).currentPassword) :=
  c2_password_fields_behavior
    ⟨false, "Jane", "Doe", "555", "jane@example.com", none, none, none, none, none⟩
    ⟨true, "", "newpass123", "whatever"⟩ .success rfl

/-- Claim C7 counterexample: on the account-details edit form with an empty
`currentPassword`, a differing `newPassword`/`newPassword2` pair does not
block submission: no mismatch message is set and a network call occurs. -/
theorem c7_counterexample :
    (⟨true, "", "abcdefgh", "ABCDEFGH"⟩ : EditDomFields).newPassword ≠
      (⟨true, "", "abcdefgh", "ABCDEFGH"⟩ : EditDomFields).newPassword2 ∧
    (editOnSubmit
        ⟨false, "Jane", "Doe", "555", "jane@example.com", none, none, none, none, none⟩
        ⟨true, "", "abcdefgh", "ABCDEFGH"⟩ .success).calls ≠ [] ∧
    (editOnSubmit
        ⟨false, "Jane", "Doe", "555", "jane@example.com", none, none, none, none, none⟩
        ⟨true, "", "abcdefgh", "ABCDEFGH"⟩ .success).state.newPassword2Error =
      none := by decide

/-- Claim C7 (amended): a differing password-confirmation pair blocks
submission with the per-form mismatch literal and no network call occurs —
on the reset form always, on the account-details edit form whenever the
password checks run, i.e. whenever `currentPassword` is non-empty. -/
theorem c7_mismatch_blocks
    (id tok : String) (rs : ResetState) (o1 : FetchOutcome)
    (es : EditState) (dom : EditDomFields) (o2 : FetchOutcome)
    (hr : rs.password ≠ rs.passwordConfirm)
    (hc : dom.currentPassword ≠ "")
    (hm : dom.newPassword ≠ dom.newPassword2) :
    ((resetOnSubmit id tok rs o1).calls = [] ∧
     (resetOnSubmit id tok rs o1).state.passwordConfirmError =
       some "The two password entered did not match.") ∧
    ((editOnSubmit es dom o2).calls = [] ∧
     (editOnSubmit es dom o2).state.newPassword2Error =
       some "The two passwords entered did not match") := by
  constructor
  · have hval : (resetPasswordValidation rs.password rs.passwordConfirm).hasError
        = true ∧
        (resetPasswordValidation rs.password rs.passwordConfirm).passwordConfirmError
          = some "The two password entered did not match." := by
      by_cases h1 : (mkValidity 8 rs.password).valid <;>
        by_cases h2 : (mkValidity 8 rs.passwordConfirm).valid <;>
          simp [resetPasswordValidation, h1, h2, hr]
    simp [resetOnSubmit, hval.1, hval.2]
  · have hval : editValidate dom =
        ⟨emailValidation dom.emailDomValid,
         utilsPasswordValidation dom.currentPassword,
         utilsPasswordValidation dom.newPassword,
         some "The two passwords entered did not match"⟩ := by
      simp [editValidate, hc, hm]
    simp [editOnSubmit, hval, EditErrors.hasAny]

/-- Witness for C7 at concrete mismatching pairs on both forms. -/
theorem c7_mismatch_blocks_witness :
    ((resetOnSubmit "gid1" "token1"
        ⟨none, "abcdefgh", none, "ABCDEFGH", none⟩ .success).calls = [] ∧
     (resetOnSubmit "gid1" "token1"
        ⟨none, "abcdefgh", none, "ABCDEFGH", none⟩ .success).state.passwordConfirmError =
       some "The two password entered did not match.") ∧
    ((editOnSubmit
        ⟨false, "Jane", "Doe", "555", "jane@example.com", none, none, none, none, none⟩
        ⟨true, "currentpw1", "abcdefgh", "ABCDEFGH"⟩ .success).calls = [] ∧
     (editOnSubmit
        ⟨false, "Jane", "Doe", "555", "jane@example.com", none, none, none, none, none⟩
        ⟨true, "currentpw1", "abcdefgh", "ABCDEFGH"⟩ .success).state.newPassword2Error =
       some "The two passwords entered did not match") :=
  c7_mismatch_blocks "gid1" "token1"
    ⟨none, "abcdefgh", none, "ABCDEFGH", none⟩ .success
    ⟨false, "Jane", "Doe", "555", "jane@example.com", none, none, none, none, none⟩
    ⟨true, "currentpw1", "abcdefgh", "ABCDEFGH"⟩ .success
    (by decide) (by decide) (by decide)

theorem editMachine_inv_step {m : EditMachine} (h1 : m.inFlight ≤ 1)
    (h2 : m.inFlight = 1 → m.saving = true) (e : EditEvent) :
    (editMachineStep m e).inFlight ≤ 1 ∧
    ((editMachineStep m e).inFlight = 1 → (editMachineStep m e).saving = true) := by
  cases e with
  | submit dom =>
    by_cases hs : m.saving
    · simp [editMachineStep, hs, h1, h2]
    · by_cases hv : (editValidate dom).hasAny
      · have hn1 : m.inFlight ≠ 1 := fun hq => hs (h2 hq)
        simp [editMachineStep, hs, hv, h1, hn1]
      · have h0 : m.inFlight = 0 := by
          rcases Nat.eq_or_lt_of_le h1 with h | h
          · exact absurd (h2 h) hs
          · omega
        simp [editMachineStep, hs, hv, h0]
  | response =>
    by_cases h0 : m.inFlight = 0
    · simp [editMachineStep, h0, h1, h2]
    · have : (m.inFlight == 0) = false := by simp [h0]
      simp [editMachineStep, this]
      omega

theorem editMachine_inv_run {m : EditMachine} (evs : List EditEvent)
    (h1 : m.inFlight ≤ 1) (h2 : m.inFlight = 1 → m.saving = true) :
    (editMachineRun m evs).inFlight ≤ 1 := by
  induction evs generalizing m with
  | nil => simpa [editMachineRun] using h1
  | cons e rest ih =>
    have h := editMachine_inv_step h1 h2 e
    simpa [editMachineRun, List.foldl] using ih h.1 h.2

/-- Claim C3 counterexample: the login form has no busy flag.  With a valid
password in the password stage, after one submit the form has one call in
flight (Submitting state); a second submit before the response issues a
second concurrent network call (two calls made, two in flight). -/
theorem c3_counterexample :
    (loginMachineStep
        ⟨⟨false, false, "u@example.com", none, "password123", none⟩, 0, 0⟩
        (.submit true)).inFlight = 1 ∧
    (loginMachineStep (loginMachineStep
        ⟨⟨false, false, "u@example.com", none, "password123", none⟩, 0, 0⟩
        (.submit true)) (.submit true)).callsMade = 2 ∧
    (loginMachineStep (loginMachineStep
        ⟨⟨false, false, "u@example.com", none, "password123", none⟩, 0, 0⟩
        (.submit true)) (.submit true)).inFlight = 2 := by decide

/-- Claim C3 (amended): only the account-details edit form has a busy flag.
Its `saving` flag does act as an exclusion mechanism: a submit event while
`saving` is true leaves the machine unchanged (no call is issued), and along
every event sequence from the initial state at most one call is ever in
flight.  The login and password-reset forms have no such flag (see the
counterexample). -/
theorem c3_busy_flag_edit_form_only :
    (∀ (m : EditMachine) (dom : EditDomFields), m.saving = true →
      editMachineStep m (.submit dom) = m) ∧
    (∀ evs : List EditEvent,
      (editMachineRun editMachineInit evs).inFlight ≤ 1) := by
  constructor
  · intro m dom h
    simp [editMachineStep, h]
  · intro evs
    exact editMachine_inv_run evs (by simp [editMachineInit])
      (by simp [editMachineInit])

/-- Witness for C3: a submit while saving is ignored at a concrete machine
state, and a concrete double-submit sequence keeps at most one call in
flight. -/
theorem c3_busy_flag_edit_form_only_witness :
    editMachineStep ⟨true, 1, 1⟩
        (.submit ⟨true, "currentpw1", "newpassword", "newpassword"⟩) =
      ⟨true, 1, 1⟩ ∧
    (editMachineRun editMachineInit
        [.submit ⟨true, "currentpw1", "newpassword", "newpassword"⟩,
         .submit ⟨true, "currentpw1", "newpassword", "newpassword"⟩]).inFlight ≤ 1 :=
  ⟨c3_busy_flag_edit_form_only.1 ⟨true, 1, 1⟩
      ⟨true, "currentpw1", "newpassword", "newpassword"⟩ rfl,
   c3_busy_flag_edit_form_only.2
      [.submit ⟨true, "currentpw1", "newpassword", "newpassword"⟩,
       .submit ⟨true, "currentpw1", "newpassword", "newpassword"⟩]⟩

/-- Claim C4 counterexample: on a thrown transport failure the account-update
adapter does not return the stringified failure; it returns the fixed
message "Error saving account. Please try again." instead. -/
theorem c4_counterexample :
    (callAccountUpdateApi "a@b.co" "np" "cp" "555" "Jane" "Doe"
        (.exception "TypeError: Failed to fetch")).2 ≠
      ⟨some "TypeError: Failed to fetch"⟩ ∧
    (callAccountUpdateApi "a@b.co" "np" "cp" "555" "Jane" "Doe"
        (.exception "TypeError: Failed to fetch")).2 =
      ⟨some "Error saving account. Please try again."⟩ := by decide

/-- Claim C4 (amended): every adapter returns `{}` on HTTP success and the
parsed JSON error body on HTTP failure; on a thrown transport failure the
login and password-reset adapters return the stringified failure, while the
account-update adapter returns the fixed message
"Error saving account. Please try again.". -/
theorem c4_adapter_responses (email pw id tok npw cpw phone fn ln e : String)
    (body : ApiResponse) :
    ((callLoginApi email pw .success).2 = ⟨none⟩ ∧
     (callPasswordResetApi id tok pw .success).2 = ⟨none⟩ ∧
     (callAccountUpdateApi email npw cpw phone fn ln .success).2 = ⟨none⟩) ∧
    ((callLoginApi email pw (.httpError body)).2 = body ∧
     (callPasswordResetApi id tok pw (.httpError body)).2 = body ∧
     (callAccountUpdateApi email npw cpw phone fn ln (.httpError body)).2 = body) ∧
    ((callLoginApi email pw (.exception e)).2 = ⟨some e⟩ ∧
     (callPasswordResetApi id tok pw (.exception e)).2 = ⟨some e⟩ ∧
     (callAccountUpdateApi email npw cpw phone fn ln (.exception e)).2 =
       ⟨some "Error saving account. Please try again."⟩) :=
  ⟨⟨rfl, rfl, rfl⟩, ⟨rfl, rfl, rfl⟩, ⟨rfl, rfl, rfl⟩⟩

/-- Claim C8: a non-ok best-sellers response renders nothing (no cards, no
error banner, no no-products text) and logs exactly one error, whose text
contains the response URL and the status code. -/
theorem c8_bestsellers_error_logging (r : BestSellersResponse)
    (h : r.ok = false) :
    (topProducts r).1 = TopRender.nothing ∧
    (topProducts r).2.length = 1 ∧
    (∃ a b, (topProducts r).2 = [a ++ r.url ++ b]) ∧
    (∃ a b, (topProducts r).2 = [a ++ toString r.status ++ b]) := by
  refine ⟨by simp [topProducts, h], by simp [topProducts, h], ?_, ?_⟩
  · refine ⟨"Unable to load top products ",
      " returned a " ++ toString r.status, ?_⟩
    simp [topProducts, h, String.append_assoc]
  · refine ⟨"Unable to load top products " ++ r.url ++ " returned a ", "", ?_⟩
    simp [topProducts, h]

/-- Witness for C8 at a concrete failed best-sellers fetch. -/
theorem c8_bestsellers_error_logging_witness :
    (topProducts ⟨false, "https://shop.example/api/bestSellers", 500, []⟩).1 =
      TopRender.nothing ∧
    (topProducts ⟨false, "https://shop.example/api/bestSellers", 500, []⟩).2.length = 1 ∧
    (∃ a b, (topProducts ⟨false, "https://shop.example/api/bestSellers", 500, []⟩).2 =
      [a ++ "https://shop.example/api/bestSellers" ++ b]) ∧
    (∃ a b, (topProducts ⟨false, "https://shop.example/api/bestSellers", 500, []⟩).2 =
      [a ++ toString 500 ++ b]) :=
  c8_bestsellers_error_logging
    ⟨false, "https://shop.example/api/bestSellers", 500, []⟩ rfl

theorem keep_truthy (o : Option String) :
    (if truthy o then o else none) = none ∨
    ∃ s, s ≠ "" ∧ o = some s ∧ (if truthy o then o else none) = some s := by
  cases o with
  | none => exact Or.inl rfl
  | some s =>
    by_cases h : s = ""
    · subst h
      exact Or.inl (by simp [truthy])
    · exact Or.inr ⟨s, h, rfl, by simp [truthy, h]⟩

/-- Claim C9: the PATCH `/account` handler copies a request field into the
`customerUpdate` payload only when it is truthy (present and non-empty):
each payload field is either omitted or equal to the corresponding non-empty
request field, so the route can never set a profile field to the empty
string and only the non-empty fields of the request reach the mutation. -/
theorem c9_route_omits_falsy_fields (b : AccountUpdateBody) :
    ((buildCustomerUpdate b).email = none ∨
      ∃ s, s ≠ "" ∧ b.email = some s ∧ (buildCustomerUpdate b).email = some s) ∧
    ((buildCustomerUpdate b).phone = none ∨
      ∃ s, s ≠ "" ∧ b.phone = some s ∧ (buildCustomerUpdate b).phone = some s) ∧
    ((buildCustomerUpdate b).firstName = none ∨
      ∃ s, s ≠ "" ∧ b.firstName = some s ∧
        (buildCustomerUpdate b).firstName = some s) ∧
    ((buildCustomerUpdate b).lastName = none ∨
      ∃ s, s ≠ "" ∧ b.lastName = some s ∧
        (buildCustomerUpdate b).lastName = some s) ∧
    ((buildCustomerUpdate b).password = none ∨
      ∃ s, s ≠ "" ∧ b.newPassword = some s ∧
        (buildCustomerUpdate b).password = some s) :=
  ⟨keep_truthy b.email, keep_truthy b.phone, keep_truthy b.firstName,
   keep_truthy b.lastName, keep_truthy b.newPassword⟩

/-- Claim C10 counterexample: with primary password "abcdefgh" and an empty
(value-missing) confirm field, the final confirm-field message of the reset
form is the mismatch literal, not "Passwords must be at least 6
characters". -/
theorem c10_counterexample :
    (mkValidity 8 "").valueMissing = true ∧ ("abcdefgh" : String) ≠ "" ∧
    (resetPasswordValidation "abcdefgh" "").passwordConfirmError ≠
      some "Passwords must be at least 6 characters" ∧
    (resetPasswordValidation "abcdefgh" "").passwordConfirmError =
      some "The two password entered did not match." := by decide

/-- Claim C10 (amended): the invalid-confirm branch of the reset form selects
its message by the primary field's `valueMissing`, so with a non-empty
primary password the branch message is "Passwords must be at least 6
characters" and never "Please re-enter a password"; however, in every state
where the confirm field is value-missing while the primary password is
non-empty the two values necessarily differ, so the mismatch check then
overwrites the final confirm-field error with
"The two password entered did not match.". -/
theorem c10_confirm_message_source (p pc : String) (hp : p ≠ "")
    (hc : (mkValidity 8 pc).valueMissing = true) :
    resetConfirmBranchMessage p = "Passwords must be at least 6 characters" ∧
    resetConfirmBranchMessage p ≠ "Please re-enter a password" ∧
    (resetPasswordValidation p pc).passwordConfirmError =
      some "The two password entered did not match." := by
  have hpc : pc = "" := by simpa [mkValidity] using hc
  subst hpc
  have hmsg : resetConfirmBranchMessage p =
      "Passwords must be at least 6 characters" := by
    simp [resetConfirmBranchMessage, mkValidity, hp]
  refine ⟨hmsg, by simp [hmsg], ?_⟩
  by_cases hv : (mkValidity 8 p).valid <;>
    simp [resetPasswordValidation, hv, hp]

/-- Witness for C10 at a concrete reset-form state. -/
theorem c10_confirm_message_source_witness :
    resetConfirmBranchMessage "abcdefgh" =
      "Passwords must be at least 6 characters" ∧
    resetConfirmBranchMessage "abcdefgh" ≠ "Please re-enter a password" ∧
    (resetPasswordValidation "abcdefgh" "").passwordConfirmError =
      some "The two password entered did not match." :=
  c10_confirm_message_source "abcdefgh" "" (by decide) (by decide)

end Hydrogen
